import Mathlib

/-!
Verification of the shopping-list aggregation and camp-statistics engine of the
Kuechenplaner repository (`app/services/unit_converter.py` and
`app/services/calculation.py`).

Modelling conventions:
* Python floats are modelled as rationals (`ℚ`); `round(x, n)` is modelled as
  exact decimal rounding with ties to even (`pyRound`), `int(x)` as truncation
  toward zero (`pyInt`).
* Python dicts are modelled as insertion-ordered association lists
  (`dictGet` / `dictSet`), matching CPython's insertion-order semantics.
* Python sets are used by the source only for membership and cardinality, so
  they are modelled by `List.dedup` / `List.toFinset`.
* `datetime` values are modelled by `PyDateTime` (an ordinal day for the date
  part plus seconds within the day); `timedelta.days` is floor division of the
  total second difference, as in CPython.
* The truthiness test `not meal_plan.recipe_id` on a nullable integer column is
  falsy for both `None` and `0`; this is modelled by `pyTruthyOptNat`.
* The collaborator's ordering of `get_meal_plans_for_camp` (by date, type,
  position) is not modelled; no property below depends on it.
-/

namespace Kuechenplaner

/-- Round a rational to the nearest integer with ties to even, the rounding
used by Python's built-in `round`. -/
def roundHalfEven (q : ℚ) : ℤ :=
  let f : ℤ := ⌊q⌋
  let frac : ℚ := q - f
  if frac < 1/2 then f
  else if 1/2 < frac then f + 1
  else if f % 2 = 0 then f else f + 1

/-- Python `round(q, n)`: round to `n` decimal digits, ties to even. -/
def pyRound (q : ℚ) (n : ℕ) : ℚ :=
  (roundHalfEven (q * (10 : ℚ) ^ n) : ℚ) / (10 : ℚ) ^ n

/-- Python `int(q)`: truncation toward zero. -/
def pyInt (q : ℚ) : ℤ :=
  if 0 ≤ q then ⌊q⌋ else ⌈q⌉

/-- Python truthiness of a nullable integer column: `None` and `0` are falsy. -/
def pyTruthyOptNat (o : Option ℕ) : Bool :=
  match o with
  | none => false
  | some n => n != 0

/-- A Python `datetime`: ordinal day of the calendar date plus seconds within
the day. -/
structure PyDateTime where
  day : ℤ
  secs : ℤ
deriving DecidableEq

/-- Python `datetime.date()`: the calendar date (as its ordinal day). -/
def PyDateTime.date (d : PyDateTime) : ℤ := d.day

/-- Python `(a - b).days` on datetimes: the timedelta's day component, which is
the floor of the total second difference divided by 86400. -/
def tdeltaDays (a b : PyDateTime) : ℤ :=
  ((a.day - b.day) * 86400 + (a.secs - b.secs)).fdiv 86400

/-- Python `d + timedelta(days := n)`. -/
def PyDateTime.addDays (d : PyDateTime) (n : ℤ) : PyDateTime :=
  { d with day := d.day + n }

/-- The `MealType` enum of `app/models.py`. -/
inductive MealType where
  | BREAKFAST
  | LUNCH
  | DINNER
deriving DecidableEq

/-- The `.value` of a `MealType` enum member. -/
def MealType.value : MealType → String
  | .BREAKFAST => "BREAKFAST"
  | .LUNCH => "LUNCH"
  | .DINNER => "DINNER"

/-- The `Ingredient` entity (the fields read by the engine). -/
structure Ingredient where
  id : ℕ
  name : String
  unit : String
  category : String
deriving DecidableEq

/-- A `RecipeIngredient` line: an ingredient reference, a quantity and a unit. -/
structure RecipeIngredient where
  ingredient : Ingredient
  quantity : ℚ
  unit : String
deriving DecidableEq

/-- The `Recipe` entity (the fields read by the engine); `allergens` is the
list of associated allergen tags, of which only emptiness is inspected. -/
structure Recipe where
  id : ℕ
  name : String
  base_servings : ℤ
  ingredients : List RecipeIngredient
  allergens : List String
deriving DecidableEq

/-- The `Camp` entity (the fields read by the engine). -/
structure Camp where
  id : ℕ
  name : String
  start_date : PyDateTime
  end_date : PyDateTime
  participant_count : ℤ
deriving DecidableEq

/-- The `MealPlan` entity: `recipe_id` is nullable (migration 001), and
`recipe` is the ORM relationship, which resolves to `none` when no recipe row
matches. -/
structure MealPlan where
  id : ℕ
  camp_id : ℕ
  recipe_id : Option ℕ
  recipe : Option Recipe
  meal_date : PyDateTime
  meal_type : MealType
  position : ℤ
  notes : String
deriving DecidableEq

/-- A snapshot of the database tables read by the engine. -/
structure Db where
  camps : List Camp
  meal_plans : List MealPlan
  recipes : List Recipe

/-- `crud.get_camp`: first camp row with the given id, if any. -/
def get_camp (db : Db) (camp_id : ℕ) : Option Camp :=
  db.camps.find? (fun c => c.id == camp_id)

/-- `crud.get_meal_plans_for_camp`: all meal-plan rows of the camp (the
source's ordering by date, type and position is not modelled). -/
def get_meal_plans_for_camp (db : Db) (camp_id : ℕ) : List MealPlan :=
  db.meal_plans.filter (fun mp => mp.camp_id == camp_id)

/-- A unit-conversion rule: threshold, target unit and multiplication factor. -/
structure ConversionRule where
  threshold : ℚ
  target : String
  factor : ℚ
deriving DecidableEq

/-- The `DEFAULT_CONVERSIONS` table of `unit_converter.py`. -/
def DEFAULT_CONVERSIONS : List (String × ConversionRule) :=
  [("g", { threshold := 1000, target := "kg", factor := 1/1000 }),
   ("ml", { threshold := 1000, target := "L", factor := 1/1000 }),
   ("mg", { threshold := 1000, target := "g", factor := 1/1000 })]

/-- Lookup in the merged rule table `DEFAULT_CONVERSIONS.copy()` followed by
`update(custom_conversions)`: a custom rule wins on key collision. -/
def mergedRule (custom_conversions : List (String × ConversionRule))
    (unit : String) : Option ConversionRule :=
  (custom_conversions.lookup unit).orElse (fun _ => DEFAULT_CONVERSIONS.lookup unit)

/-- The dict returned by `convert_unit`; the original fields are only present
on the conversion branch. -/
structure ConversionResult where
  quantity : ℚ
  unit : String
  was_converted : Bool
  original_quantity : Option ℚ
  original_unit : Option String
deriving DecidableEq

/-- The shared final return of `convert_unit` ("no conversion needed or
possible"): `round(quantity, 2) if quantity != int(quantity) else
int(quantity)`. -/
def noConversionResult (quantity : ℚ) (unit : String) : ConversionResult :=
  { quantity := if quantity ≠ (pyInt quantity : ℚ) then pyRound quantity 2 else (pyInt quantity : ℚ),
    unit := unit,
    was_converted := false,
    original_quantity := none,
    original_unit := none }

/-- The body of `convert_unit` applied to the result of the rule lookup
(`if unit in conversions`): threshold test, conversion and the source's
magnitude-dependent rounding. -/
def convertApply (quantity : ℚ) (unit : String) :
    Option ConversionRule → ConversionResult
  | some conv =>
    if conv.threshold ≤ quantity then
      let converted_quantity := quantity * conv.factor
      { quantity :=
          if 10 ≤ converted_quantity then pyRound converted_quantity 1
          else if 1 ≤ converted_quantity then pyRound converted_quantity 2
          else pyRound converted_quantity 3,
        unit := conv.target,
        was_converted := true,
        original_quantity := some quantity,
        original_unit := some unit }
    else noConversionResult quantity unit
  | none => noConversionResult quantity unit

/-- `unit_converter.convert_unit`: threshold-based unit rewriting over the
merged rule table. -/
def convert_unit (quantity : ℚ) (unit : String)
    (custom_conversions : List (String × ConversionRule)) : ConversionResult :=
  convertApply quantity unit (mergedRule custom_conversions unit)

/-- A scaled ingredient line as produced by `scale_recipe`. -/
structure ScaledIngredient where
  ingredient : Ingredient
  quantity : ℚ
  unit : String
  original_quantity : ℚ
  original_unit : String
deriving DecidableEq

/-- The dict returned by `scale_recipe`. -/
structure ScaledRecipe where
  recipe : Recipe
  ingredients : List ScaledIngredient
  factor : ℚ
  target_servings : ℤ
  base_servings : ℤ
deriving DecidableEq

/-- `calculation.scale_recipe`: scale recipe ingredients to target servings;
raises `ValueError` when `base_servings <= 0`. -/
def scale_recipe (recipe : Recipe) (target_servings : ℤ) : Except String ScaledRecipe :=
  if recipe.base_servings ≤ 0 then
    .error "Recipe base_servings must be greater than 0"
  else
    let factor : ℚ := (target_servings : ℚ) / (recipe.base_servings : ℚ)
    .ok { recipe := recipe,
          ingredients := recipe.ingredients.map (fun ri =>
            { ingredient := ri.ingredient,
              quantity := ri.quantity * factor,
              unit := ri.unit,
              original_quantity := ri.quantity,
              original_unit := ri.unit }),
          factor := factor,
          target_servings := target_servings,
          base_servings := recipe.base_servings }

/-- An entry of the aggregation dict of `calculate_shopping_list`; the
defaultdict initialises a missing key to
`{quantity: 0, ingredient: None, unit: None}`, hence the `Option` fields.
Every entry of a state produced by the aggregation loop has its `ingredient`
and `unit` set. -/
structure AggEntry where
  quantity : ℚ
  ingredient : Option Ingredient
  unit : Option String
deriving DecidableEq

/-- The aggregation key: `(ingredient.id, unit)`. -/
abbrev AggKey : Type := ℕ × String

/-- The aggregation dict, as an insertion-ordered association list. -/
abbrev AggState : Type := List (AggKey × AggEntry)

/-- The defaultdict's default entry. -/
def aggDefault : AggEntry :=
  { quantity := 0, ingredient := none, unit := none }

/-- Dict read: first binding of the key, if any. -/
def dictGet (st : AggState) (key : AggKey) : Option AggEntry :=
  match st with
  | [] => none
  | (k, v) :: rest => if k = key then some v else dictGet rest key

/-- Dict write with Python's insertion-order semantics: replace in place when
the key is present, append at the end otherwise. -/
def dictSet (st : AggState) (key : AggKey) (e : AggEntry) : AggState :=
  match st with
  | [] => [(key, e)]
  | (k, v) :: rest => if k = key then (key, e) :: rest else (k, v) :: dictSet rest key e

/-- The loop body applied to one aggregation entry: set the ingredient and the
unit on the first occurrence of the key, then add the scaled quantity. -/
def aggApply (ingredient : Ingredient) (quantity : ℚ) (unit : String)
    (entry : AggEntry) : AggEntry :=
  let entry1 :=
    if entry.ingredient = none then
      { entry with ingredient := some ingredient, unit := some unit }
    else entry
  { entry1 with quantity := entry1.quantity + quantity }

/-- Process one scaled ingredient of the inner loop of
`calculate_shopping_list`. -/
def aggIngredient (st : AggState) (ingredient : Ingredient) (quantity : ℚ)
    (unit : String) : AggState :=
  let key : AggKey := (ingredient.id, unit)
  dictSet st key (aggApply ingredient quantity unit ((dictGet st key).getD aggDefault))

/-- Accumulate the lines of a scaling result into the aggregation dict,
propagating the scaling error if any. -/
def aggScaled (st : AggState) : Except String ScaledRecipe → Except String AggState
  | .error e => .error e
  | .ok scaled =>
    .ok (scaled.ingredients.foldl
      (fun s d => aggIngredient s d.ingredient d.quantity d.unit) st)

/-- The recipe-resolution step of the loop body: a slot whose relationship
resolves to no recipe is skipped, otherwise its recipe is scaled and
accumulated. -/
def aggWithRecipe (participant_count : ℤ) (st : AggState) :
    Option Recipe → Except String AggState
  | none => .ok st
  | some recipe => aggScaled st (scale_recipe recipe participant_count)

/-- Process one meal plan of the outer loop of `calculate_shopping_list`:
skip it when `not meal_plan.recipe_id or not meal_plan.recipe`, otherwise
scale the recipe to the participant count and accumulate every scaled line. -/
def aggPlan (participant_count : ℤ) (st : AggState) (mp : MealPlan) :
    Except String AggState :=
  if pyTruthyOptNat mp.recipe_id = false then .ok st
  else aggWithRecipe participant_count st mp.recipe

/-- The aggregation loop of `calculate_shopping_list` over the meal plans. -/
def aggregatePlans (participant_count : ℤ) (st : AggState) :
    List MealPlan → Except String AggState
  | [] => .ok st
  | mp :: rest =>
    match aggPlan participant_count st mp with
    | .error e => .error e
    | .ok st1 => aggregatePlans participant_count st1 rest

/-- A shopping item of the final list. On states produced by the aggregation
loop the entry's `ingredient` and `unit` are always set, so the `getD`
defaults used when building an item are never exercised. -/
structure ShoppingItem where
  ingredient : Option Ingredient
  quantity : ℚ
  unit : String
  original_quantity : ℚ
  original_unit : String
  category : String
deriving DecidableEq

/-- Build one shopping item from an aggregation entry: run the unit converter
over the summed quantity (the source passes no custom rules here) and carry
the original quantity, unit and the ingredient's category. -/
def buildItem (kv : AggKey × AggEntry) : ShoppingItem :=
  let data := kv.2
  let u := data.unit.getD ""
  let converted := convert_unit data.quantity u []
  { ingredient := data.ingredient,
    quantity := converted.quantity,
    unit := converted.unit,
    original_quantity := data.quantity,
    original_unit := u,
    category := (data.ingredient.map (fun i => i.category)).getD "" }

/-- Group the shopping items by category, sort the category names
lexicographically and the items of a category by ingredient name (Python's
`sorted` is stable; so is `mergeSort`). -/
def groupCategories (items : List ShoppingItem) : List (String × List ShoppingItem) :=
  let cats := (items.map (fun it => it.category)).dedup
  let sortedCats := cats.mergeSort (fun a b => a ≤ b)
  sortedCats.map (fun c =>
    (c, (items.filter (fun it => it.category == c)).mergeSort
      (fun a b => (a.ingredient.map (fun i => i.name)).getD "" ≤ (b.ingredient.map (fun i => i.name)).getD "")))

/-- The dict returned by `calculate_shopping_list`. -/
structure ShoppingList where
  camp : Camp
  items : List ShoppingItem
  categories : List (String × List ShoppingItem)
  total_items : ℕ
  total_recipes : ℕ
deriving DecidableEq

/-- The tail of `calculate_shopping_list` after the aggregation loop: build
the items, group them, and report the totals, with
`total_recipes = len(set(mp.recipe_id for mp in meal_plans))`; a scaling
error raised inside the loop propagates. -/
def shoppingFromAgg (camp : Camp) (meal_plans : List MealPlan) :
    Except String AggState → Except String ShoppingList
  | .error e => .error e
  | .ok aggregated =>
    let shopping_items := aggregated.map buildItem
    .ok { camp := camp,
          items := shopping_items,
          categories := groupCategories shopping_items,
          total_items := shopping_items.length,
          total_recipes := ((meal_plans.map (fun mp => mp.recipe_id)).dedup).length }

/-- The camp-existence guard of `calculate_shopping_list`: raise `ValueError`
when the camp does not exist, otherwise fetch the camp's meal plans and run
the aggregation. -/
def campShoppingList (db : Db) (camp_id : ℕ) :
    Option Camp → Except String ShoppingList
  | none => .error ("Camp with id " ++ toString camp_id ++ " not found")
  | some camp =>
    let meal_plans := get_meal_plans_for_camp db camp_id
    shoppingFromAgg camp meal_plans (aggregatePlans camp.participant_count [] meal_plans)

/-- `calculation.calculate_shopping_list`: calculate the aggregated shopping
list for a camp. -/
def calculate_shopping_list (db : Db) (camp_id : ℕ) : Except String ShoppingList :=
  campShoppingList db camp_id (get_camp db camp_id)

/-- The `day_meals` dict update of the daily-overview loop: replace a `None`
slot by `[]`, then append the plan to its meal-type's list. -/
def dmUpdate (dm : MealType → Option (List MealPlan)) (mp : MealPlan) :
    MealType → Option (List MealPlan) :=
  fun mt =>
    if mt = mp.meal_type then some ((dm mp.meal_type).getD [] ++ [mp])
    else dm mt

/-- The inner loop of the daily overview: starting from
`{BREAKFAST: None, LUNCH: None, DINNER: None}`, append every meal plan whose
`meal_date.date()` equals the day's date to its meal-type's list. -/
def dayMealsFold (plans : List MealPlan) (day_date : PyDateTime) :
    MealType → Option (List MealPlan) :=
  plans.foldl
    (fun dm mp => if mp.meal_date.date = day_date.date then dmUpdate dm mp else dm)
    (fun _ => none)

/-- The `.values()` order of the `day_meals` dict literal. -/
def allMealTypes : List MealType :=
  [MealType.BREAKFAST, MealType.LUNCH, MealType.DINNER]

/-- The `meals_planned` count of one overview day: the meal types whose slot
is a non-`None`, non-empty list. -/
def mealsPlannedCount (dm : MealType → Option (List MealPlan)) : ℕ :=
  (allMealTypes.filter (fun mt =>
    match dm mt with
    | some l => !l.isEmpty
    | none => false)).length

/-- One entry of the daily overview. -/
structure DayOverview where
  day_number : ℕ
  date : PyDateTime
  meals : MealType → Option (List MealPlan)
  meals_planned : ℕ

/-- The daily-overview loop: one entry per `day_num in range(total_days)`,
dated `start_date + timedelta(days=day_num)`. -/
def buildDailyOverview (camp : Camp) (plans : List MealPlan) (total_days : ℤ) :
    List DayOverview :=
  (List.range total_days.toNat).map (fun day_num =>
    let day_date := camp.start_date.addDays (Int.ofNat day_num)
    let dm := dayMealsFold plans day_date
    { day_number := day_num + 1,
      date := day_date,
      meals := dm,
      meals_planned := mealsPlannedCount dm })

/-- The dict returned by `get_camp_statistics` (for an existing camp). -/
structure CampStatistics where
  camp : Camp
  total_days : ℤ
  planned_meals : ℕ
  expected_meals : ℤ
  unique_recipes : ℕ
  meal_counts : String → ℕ
  completion_percentage : ℚ
  warnings : List String
  daily_overview : List DayOverview

/-- The body of `get_camp_statistics` for an existing camp. The bulk allergen
query is modelled as a filter of the recipe table by membership in the
collected id set. -/
def buildCampStatistics (db : Db) (camp_id : ℕ) (camp : Camp) : CampStatistics :=
  let meal_plans := get_meal_plans_for_camp db camp_id
  let recipe_ids :=
    (meal_plans.filterMap (fun mp =>
      if pyTruthyOptNat mp.recipe_id then mp.recipe_id else none)).dedup
  let total_days := tdeltaDays camp.end_date camp.start_date + 1
  let expected_meals := total_days * 3
  let planned_meals :=
    ((meal_plans.map (fun mp => (mp.meal_date.date, mp.meal_type))).dedup).length
  let missingWarnings : List String :=
    if (planned_meals : ℤ) < expected_meals then
      [toString (expected_meals - planned_meals) ++ " Mahlzeiten noch nicht geplant"]
    else []
  let recipes_to_check := db.recipes.filter (fun r => r.id ∈ recipe_ids)
  let recipes_without_allergens :=
    (recipes_to_check.filter (fun r => r.allergens.isEmpty)).length
  let allergenWarnings : List String :=
    if ¬ recipe_ids.isEmpty ∧ recipes_without_allergens > 0 then
      [toString recipes_without_allergens ++ " Rezepte ohne Allergen-Informationen"]
    else []
  { camp := camp,
    total_days := total_days,
    planned_meals := planned_meals,
    expected_meals := expected_meals,
    unique_recipes := recipe_ids.length,
    meal_counts := fun s =>
      (meal_plans.filter (fun mp => mp.meal_type.value == s)).length,
    completion_percentage :=
      if expected_meals > 0 then
        pyRound ((planned_meals : ℚ) / (expected_meals : ℚ) * 100) 1
      else 0,
    warnings := missingWarnings ++ allergenWarnings,
    daily_overview := buildDailyOverview camp meal_plans total_days }

/-- The camp-existence guard of `get_camp_statistics`: the empty dict for a
missing camp is modelled as `none`. -/
def campStatisticsOf (db : Db) (camp_id : ℕ) : Option Camp → Option CampStatistics
  | none => none
  | some camp => some (buildCampStatistics db camp_id camp)

/-- `calculation.get_camp_statistics`: statistics for a camp, empty when the
camp does not exist. -/
def get_camp_statistics (db : Db) (camp_id : ℕ) : Option CampStatistics :=
  campStatisticsOf db camp_id (get_camp db camp_id)

/-- The running quantity total of the aggregation dict at a key; `0` when the
key is absent, matching the defaultdict's initial value. -/
def aggQuantity (st : AggState) (key : AggKey) : ℚ :=
  ((dictGet st key).getD aggDefault).quantity

/-- The sum, at one key, of a flat list of `(key, quantity)` contributions. -/
def contribAt (key : AggKey) (l : List (AggKey × ℚ)) : ℚ :=
  (l.map (fun p => if p.1 = key then p.2 else 0)).sum

/-- The `(key, scaled quantity)` pairs contributed by an optional recipe. -/
def recipeContribs (participant_count : ℤ) : Option Recipe → List (AggKey × ℚ)
  | none => []
  | some recipe =>
    recipe.ingredients.map (fun ri =>
      ((ri.ingredient.id, ri.unit),
        ri.quantity * ((participant_count : ℚ) / (recipe.base_servings : ℚ))))

/-- The `(key, scaled quantity)` contributions of one meal plan: empty for a
skipped slot, one pair per ingredient line of the assigned recipe otherwise. -/
def planContribs (participant_count : ℤ) (mp : MealPlan) : List (AggKey × ℚ) :=
  if pyTruthyOptNat mp.recipe_id = false then []
  else recipeContribs participant_count mp.recipe

/-- The total contribution of a list of meal plans at one key. -/
def plansTotal (participant_count : ℤ) (plans : List MealPlan) (key : AggKey) : ℚ :=
  (plans.map (fun mp => contribAt key (planContribs participant_count mp))).sum

/-- The number of distinct recipe identities referenced by any meal slot,
following the words of the spec: a slot without a recipe references no
identity. Compared against the `total_recipes` field computed by
`calculate_shopping_list`. -/
def distinctRecipeIdentities (plans : List MealPlan) : ℕ :=
  ((plans.filterMap (fun mp => mp.recipe_id)).dedup).length

/-- The meal-plan rows falling on a given date with a given meal type, in
list order. -/
def dayRows (plans : List MealPlan) (day_date : PyDateTime) (mt : MealType) :
    List MealPlan :=
  plans.filter (fun mp =>
    decide (mp.meal_date.date = day_date.date) && decide (mp.meal_type = mt))

/-- The statistics formulas asserted by the spec for an existing camp:
inclusive day count, three expected slots per day, planned slots as the number
of distinct (date, meal-type) pairs carrying at least one row, and the
completion percentage. -/
def StatisticsFormulasSpec (db : Db) (camp_id : ℕ) (camp : Camp) : Prop :=
  ∃ s, get_camp_statistics db camp_id = some s ∧
    s.total_days = tdeltaDays camp.end_date camp.start_date + 1 ∧
    s.expected_meals = s.total_days * 3 ∧
    s.planned_meals =
      ((get_meal_plans_for_camp db camp_id).map
        (fun mp => (mp.meal_date.date, mp.meal_type))).toFinset.card ∧
    s.completion_percentage =
      (if 0 < s.expected_meals then
        pyRound ((s.planned_meals : ℚ) / (s.expected_meals : ℚ) * 100) 1
      else 0)

/-- The daily-overview shape for an existing camp, as amended: one entry per
day counted by `total_days`, the n-th dated `start_date + n` days; every
meal-type slot of an entry is `none` when no rows fall on that date and the
non-empty list of exactly those rows otherwise; `meals_planned` counts the
meal-types with at least one row. -/
def DailyOverviewSpec (db : Db) (camp_id : ℕ) (camp : Camp) : Prop :=
  ∃ s, get_camp_statistics db camp_id = some s ∧
    s.daily_overview.length = s.total_days.toNat ∧
    ∀ n (hn : n < s.daily_overview.length),
      (s.daily_overview.get ⟨n, hn⟩).day_number = n + 1 ∧
      (s.daily_overview.get ⟨n, hn⟩).date = camp.start_date.addDays (Int.ofNat n) ∧
      (∀ mt,
        (s.daily_overview.get ⟨n, hn⟩).meals mt =
          (if dayRows (get_meal_plans_for_camp db camp_id)
                (camp.start_date.addDays (Int.ofNat n)) mt = []
           then none
           else some (dayRows (get_meal_plans_for_camp db camp_id)
                (camp.start_date.addDays (Int.ofNat n)) mt))) ∧
      (s.daily_overview.get ⟨n, hn⟩).meals_planned =
        (allMealTypes.filter (fun mt =>
          !(dayRows (get_meal_plans_for_camp db camp_id)
              (camp.start_date.addDays (Int.ofNat n)) mt).isEmpty)).length

/-- A sample ingredient for the concrete instances below. -/
def Wing : Ingredient :=
  { id := 1, name := "Mehl", unit := "g", category := "Backen" }

/-- A second sample ingredient, distinct from `Wing`. -/
def Wing2 : Ingredient :=
  { id := 2, name := "Zucker", unit := "g", category := "Backen" }

/-- A sample recipe: 600 g of `Wing` at 25 base servings. -/
def Wrec : Recipe :=
  { id := 1, name := "Brot", base_servings := 25,
    ingredients := [{ ingredient := Wing, quantity := 600, unit := "g" }],
    allergens := [] }

/-- A second sample recipe: 500 g of `Wing2` at 25 base servings. -/
def Wrec2 : Recipe :=
  { id := 2, name := "Kuchen", base_servings := 25,
    ingredients := [{ ingredient := Wing2, quantity := 500, unit := "g" }],
    allergens := [] }

/-- A recipe violating the scaling precondition. -/
def WrecBad : Recipe :=
  { id := 3, name := "Kaputt", base_servings := 0, ingredients := [], allergens := [] }

/-- A sample camp: three days, 50 participants. -/
def Wcamp : Camp :=
  { id := 1, name := "Sommerlager", start_date := { day := 100, secs := 0 },
    end_date := { day := 102, secs := 0 }, participant_count := 50 }

/-- A meal slot with an assigned recipe. -/
def WmpB : MealPlan :=
  { id := 1, camp_id := 1, recipe_id := some 1, recipe := some Wrec,
    meal_date := { day := 100, secs := 0 }, meal_type := .BREAKFAST,
    position := 0, notes := "" }

/-- An explicit no-meal slot (`recipe_id` null). -/
def WmpNone : MealPlan :=
  { id := 2, camp_id := 1, recipe_id := none, recipe := none,
    meal_date := { day := 101, secs := 0 }, meal_type := .LUNCH,
    position := 0, notes := "" }

/-- A second recipe-bearing slot, used for the permutation instance. -/
def WmpD : MealPlan :=
  { id := 3, camp_id := 1, recipe_id := some 2, recipe := some Wrec2,
    meal_date := { day := 101, secs := 0 }, meal_type := .DINNER,
    position := 0, notes := "" }

/-- The sample database: one camp, a recipe slot and a no-meal slot. -/
def Wdb : Db := { camps := [Wcamp], meal_plans := [WmpB, WmpNone], recipes := [Wrec] }

/-- An empty database. -/
def WdbEmpty : Db := { camps := [], meal_plans := [], recipes := [] }

/-- The aggregation state reached from `[WmpB, WmpD]` at 50 participants. -/
def WaggL : AggState :=
  [((1, "g"), { quantity := 1200, ingredient := some Wing, unit := some "g" }),
   ((2, "g"), { quantity := 1000, ingredient := some Wing2, unit := some "g" })]

/-- The aggregation state reached from `[WmpD, WmpB]` at 50 participants. -/
def WaggR : AggState :=
  [((2, "g"), { quantity := 1000, ingredient := some Wing2, unit := some "g" }),
   ((1, "g"), { quantity := 1200, ingredient := some Wing, unit := some "g" })]

/-- C7: for every camp id that does not resolve to a camp,
`calculate_shopping_list` raises the not-found `ValueError` (the spec's
`NotFound(Camp)`) before producing any part of a shopping list, while
`get_camp_statistics` returns the empty result instead of raising. Both
operations are modelled as pure functions over a database snapshot, so
neither modifies any state. -/
theorem missing_camp_asymmetry (db : Db) (camp_id : ℕ)
    (h : get_camp db camp_id = none) :
    calculate_shopping_list db camp_id =
      .error ("Camp with id " ++ toString camp_id ++ " not found") ∧
    get_camp_statistics db camp_id = none := by
  constructor
  · unfold calculate_shopping_list
    rw [h]
    rfl
  · unfold get_camp_statistics
    rw [h]
    rfl

/-- Witness for C7 at the empty database. -/
theorem missing_camp_asymmetry_witness :
    calculate_shopping_list WdbEmpty 1 =
      .error ("Camp with id " ++ toString 1 ++ " not found") ∧
    get_camp_statistics WdbEmpty 1 = none :=
  missing_camp_asymmetry WdbEmpty 1 rfl

/-- C2: for every recipe with `base_servings > 0` and every target serving
count, `scale_recipe` returns one scaled entry per ingredient line whose
quantity is the line's quantity multiplied by
`target_servings / base_servings` (exact division, not rounded) and whose
unit is the line's unit unchanged; for `base_servings <= 0` it fails with the
`ValueError` that realises the spec's `InvalidRecipe` domain error instead of
returning a result. -/
theorem scale_recipe_spec (recipe : Recipe) (target_servings : ℤ) :
    (0 < recipe.base_servings →
      ∃ s, scale_recipe recipe target_servings = .ok s ∧
        s.ingredients.map (fun e => (e.quantity, e.unit)) =
          recipe.ingredients.map (fun ri =>
            (ri.quantity * ((target_servings : ℚ) / (recipe.base_servings : ℚ)),
              ri.unit))) ∧
    (recipe.base_servings ≤ 0 →
      scale_recipe recipe target_servings =
        .error "Recipe base_servings must be greater than 0") := by
  constructor
  · intro h
    have hne : ¬ recipe.base_servings ≤ 0 := not_le.mpr h
    unfold scale_recipe
    rw [if_neg hne]
    refine ⟨_, rfl, ?_⟩
    rw [List.map_map]
    rfl
  · intro h
    unfold scale_recipe
    rw [if_pos h]

/-- Witness for C2: scaling a valid recipe and a zero-base recipe. -/
theorem scale_recipe_spec_witness :
    (∃ s, scale_recipe Wrec 50 = .ok s ∧
      s.ingredients.map (fun e => (e.quantity, e.unit)) =
        Wrec.ingredients.map (fun ri =>
          (ri.quantity * (((50 : ℤ) : ℚ) / (Wrec.base_servings : ℚ)), ri.unit))) ∧
    scale_recipe WrecBad 50 =
      .error "Recipe base_servings must be greater than 0" :=
  ⟨(scale_recipe_spec Wrec 50).1 (by decide),
   (scale_recipe_spec WrecBad 50).2 (by decide)⟩

/-- C3: `convert_unit` looks the unit up in the built-in rules overridden by
the runtime rules (runtime wins on key collision); when a rule exists and the
quantity reaches its threshold the result carries the rule's target unit, a
quantity derived from `quantity * factor` (by rounding at some precision) and
`was_converted = true`; when the unit has no rule or the quantity is strictly
below the threshold the unit is returned unchanged with
`was_converted = false`. `convert_unit` is a total function into
`ConversionResult`, so it never raises. -/
theorem convert_unit_lookup_spec (q : ℚ) (u : String)
    (custom : List (String × ConversionRule)) :
    (∀ r, custom.lookup u = some r → mergedRule custom u = some r) ∧
    (custom.lookup u = none →
      mergedRule custom u = DEFAULT_CONVERSIONS.lookup u) ∧
    (∀ rule, mergedRule custom u = some rule → rule.threshold ≤ q →
      (convert_unit q u custom).unit = rule.target ∧
      (convert_unit q u custom).was_converted = true ∧
      ∃ n, (convert_unit q u custom).quantity = pyRound (q * rule.factor) n) ∧
    (mergedRule custom u = none →
      (convert_unit q u custom).unit = u ∧
      (convert_unit q u custom).was_converted = false) ∧
    (∀ rule, mergedRule custom u = some rule → q < rule.threshold →
      (convert_unit q u custom).unit = u ∧
      (convert_unit q u custom).was_converted = false) := by
  refine ⟨?_, ?_, ?_, ?_, ?_⟩
  · intro r hr
    unfold mergedRule
    rw [hr]
    rfl
  · intro hr
    unfold mergedRule
    rw [hr]
    rfl
  · intro rule hrule hq
    unfold convert_unit
    rw [hrule]
    simp only [convertApply]
    rw [if_pos hq]
    refine ⟨rfl, rfl, ?_⟩
    by_cases h10 : 10 ≤ q * rule.factor
    · exact ⟨1, by simp [h10]⟩
    · by_cases h1 : 1 ≤ q * rule.factor
      · exact ⟨2, by simp [h10, h1]⟩
      · exact ⟨3, by simp [h10, h1]⟩
  · intro hrule
    unfold convert_unit
    rw [hrule]
    exact ⟨rfl, rfl⟩
  · intro rule hrule hq
    unfold convert_unit
    rw [hrule]
    simp only [convertApply]
    rw [if_neg (not_le.mpr hq)]
    exact ⟨rfl, rfl⟩

/-- Witness for C3: 1500 g converts to kg, 500 g stays below the threshold. -/
theorem convert_unit_lookup_spec_witness :
    (convert_unit 1500 "g" []).unit = "kg" ∧
    (convert_unit 1500 "g" []).was_converted = true ∧
    (convert_unit 500 "g" []).unit = "g" ∧
    (convert_unit 500 "g" []).was_converted = false := by
  have hr : mergedRule [] "g" =
      some { threshold := 1000, target := "kg", factor := 1/1000 } := rfl
  obtain ⟨hu, hc, -⟩ :=
    (convert_unit_lookup_spec 1500 "g" []).2.2.1 _ hr (by norm_num)
  obtain ⟨hu2, hc2⟩ :=
    (convert_unit_lookup_spec 500 "g" []).2.2.2.2 _ hr (by norm_num)
  exact ⟨hu, hc, hu2, hc2⟩

/-- C4: when a conversion fires, the converted quantity is rounded to 1
decimal place if it is at least 10, to 2 decimals if it lies in [1, 10), and
to 3 decimals if it is below 1; when no conversion fires, the returned
quantity is the input rounded to 2 decimals unless the input is a whole
number, in which case the input's value is returned (the source returns it as
`int(quantity)`, equal in value). -/
theorem convert_unit_rounding_spec (q : ℚ) (u : String)
    (custom : List (String × ConversionRule)) :
    (∀ rule, mergedRule custom u = some rule → rule.threshold ≤ q →
      (10 ≤ q * rule.factor →
        (convert_unit q u custom).quantity = pyRound (q * rule.factor) 1) ∧
      (1 ≤ q * rule.factor ∧ q * rule.factor < 10 →
        (convert_unit q u custom).quantity = pyRound (q * rule.factor) 2) ∧
      (q * rule.factor < 1 →
        (convert_unit q u custom).quantity = pyRound (q * rule.factor) 3)) ∧
    ((∀ rule, mergedRule custom u = some rule → q < rule.threshold) →
      (q ≠ (pyInt q : ℚ) → (convert_unit q u custom).quantity = pyRound q 2) ∧
      (q = (pyInt q : ℚ) → (convert_unit q u custom).quantity = q)) := by
  constructor
  · intro rule hrule hq
    unfold convert_unit
    rw [hrule]
    simp only [convertApply]
    rw [if_pos hq]
    refine ⟨?_, ?_, ?_⟩
    · intro h10
      simp [h10]
    · rintro ⟨h1, h10⟩
      simp [not_le.mpr h10, h1]
    · intro h1
      have h10 : ¬ 10 ≤ q * rule.factor :=
        not_le.mpr (lt_of_lt_of_le h1 (by norm_num : (1 : ℚ) ≤ 10))
      simp [h10, not_le.mpr h1]
  · intro hno
    have hfinal :
        (convert_unit q u custom).quantity =
          (if q ≠ (pyInt q : ℚ) then pyRound q 2 else (pyInt q : ℚ)) := by
      unfold convert_unit
      cases hm : mergedRule custom u with
      | none => rfl
      | some rule =>
        simp only [convertApply]
        rw [if_neg (not_le.mpr (hno rule hm))]
        rfl
    constructor
    · intro hne
      rw [hfinal, if_pos hne]
    · intro heq
      rw [hfinal, if_neg (not_not_intro heq)]
      exact heq.symm

/-- Witness for C4: 1200 g fires the rule (1.2 kg, 2 decimals) and a whole
quantity with no applicable rule is returned unchanged. -/
theorem convert_unit_rounding_spec_witness :
    (convert_unit 1200 "g" []).quantity = pyRound ((1200 : ℚ) * (1/1000)) 2 ∧
    (convert_unit 5 "x" []).quantity = 5 := by
  have hr : mergedRule [] "g" =
      some { threshold := 1000, target := "kg", factor := 1/1000 } := rfl
  have hnone : mergedRule [] "x" = (none : Option ConversionRule) := rfl
  have h1 := ((convert_unit_rounding_spec 1200 "g" []).1 _ hr (by norm_num)).2.1
    (by constructor <;> norm_num)
  have h2 := ((convert_unit_rounding_spec 5 "x" []).2
    (fun rule hrule => by rw [hnone] at hrule; cases hrule)).2 (by decide)
  exact ⟨h1, h2⟩

/-- Reading a key after a dict write: the written entry at the written key,
the previous binding elsewhere. -/
theorem dictGet_dictSet (st : AggState) (k k' : AggKey) (e : AggEntry) :
    dictGet (dictSet st k e) k' = if k = k' then some e else dictGet st k' := by
  induction st with
  | nil => simp [dictSet, dictGet]
  | cons kv rest ih =>
    obtain ⟨a, b⟩ := kv
    by_cases hak : a = k
    · subst hak
      by_cases hk : a = k' <;> simp [dictSet, dictGet, hk]
    · by_cases hk : k = k'
      · subst hk
        simp [dictSet, dictGet, hak, ih]
      · by_cases ha : a = k'
        · subst ha
          simp [dictSet, dictGet, hak, hk]
        · simp [dictSet, dictGet, hak, hk, ha, ih]

/-- The entry update of the aggregation loop adds the scaled quantity. -/
theorem aggApply_quantity (i : Ingredient) (q : ℚ) (u : String) (e : AggEntry) :
    (aggApply i q u e).quantity = e.quantity + q := by
  unfold aggApply
  by_cases h : e.ingredient = none <;> simp [h]

/-- Processing one scaled line bumps exactly its own key. -/
theorem aggQuantity_aggIngredient (st : AggState) (i : Ingredient) (q : ℚ)
    (u : String) (k : AggKey) :
    aggQuantity (aggIngredient st i q u) k =
      aggQuantity st k + (if (i.id, u) = k then q else 0) := by
  unfold aggQuantity aggIngredient
  rw [dictGet_dictSet]
  by_cases hk : (i.id, u) = k
  · rw [if_pos hk, if_pos hk]
    subst hk
    simp [aggApply_quantity]
  · rw [if_neg hk, if_neg hk]
    simp

/-- The inner loop over the scaled ingredients adds each line's contribution
at its key. -/
theorem aggQuantity_foldl (l : List ScaledIngredient) (st : AggState) (k : AggKey) :
    aggQuantity
        (l.foldl (fun s d => aggIngredient s d.ingredient d.quantity d.unit) st) k =
      aggQuantity st k +
        contribAt k (l.map (fun d => ((d.ingredient.id, d.unit), d.quantity))) := by
  induction l generalizing st with
  | nil => simp [contribAt]
  | cons d rest ih =>
    simp only [List.foldl_cons, List.map_cons]
    rw [ih, aggQuantity_aggIngredient]
    simp only [contribAt, List.map_cons, List.sum_cons]
    ring

/-- Processing one meal plan adds exactly its contributions at every key. -/
theorem aggQuantity_aggPlan (participant_count : ℤ) (st st' : AggState)
    (mp : MealPlan) (h : aggPlan participant_count st mp = .ok st') (k : AggKey) :
    aggQuantity st' k =
      aggQuantity st k + contribAt k (planContribs participant_count mp) := by
  unfold aggPlan at h
  by_cases htr : pyTruthyOptNat mp.recipe_id = false
  · rw [if_pos htr] at h
    cases h
    simp [planContribs, htr, contribAt]
  · rw [if_neg htr] at h
    cases hrec : mp.recipe with
    | none =>
      rw [hrec] at h
      simp only [aggWithRecipe] at h
      cases h
      simp [planContribs, htr, hrec, recipeContribs, contribAt]
    | some recipe =>
      rw [hrec] at h
      simp only [aggWithRecipe] at h
      cases hs : scale_recipe recipe participant_count with
      | error e =>
        rw [hs] at h
        simp only [aggScaled] at h
        cases h
      | ok scaled =>
        rw [hs] at h
        simp only [aggScaled, Except.ok.injEq] at h
        subst h
        rw [aggQuantity_foldl]
        congr 1
        unfold scale_recipe at hs
        by_cases hbs : recipe.base_servings ≤ 0
        · rw [if_pos hbs] at hs
          cases hs
        · rw [if_neg hbs] at hs
          simp only [Except.ok.injEq] at hs
          subst hs
          simp only [planContribs, hrec, if_neg htr, recipeContribs, List.map_map]
          rfl

/-- The whole aggregation loop adds the plans' total at every key. -/
theorem aggQuantity_aggregatePlans (participant_count : ℤ)
    (plans : List MealPlan) (st st' : AggState)
    (h : aggregatePlans participant_count st plans = .ok st') (k : AggKey) :
    aggQuantity st' k =
      aggQuantity st k + plansTotal participant_count plans k := by
  induction plans generalizing st with
  | nil =>
    simp only [aggregatePlans] at h
    cases h
    simp [plansTotal]
  | cons mp rest ih =>
    simp only [aggregatePlans] at h
    cases hp : aggPlan participant_count st mp with
    | error e =>
      rw [hp] at h
      cases h
    | ok st1 =>
      rw [hp] at h
      rw [ih st1 h, aggQuantity_aggPlan participant_count st st1 mp hp k]
      simp only [plansTotal, List.map_cons, List.sum_cons]
      ring

/-- The per-key total of a list of meal plans is invariant under permutation. -/
theorem plansTotal_perm (participant_count : ℤ)
    {plans plans' : List MealPlan} (h : plans.Perm plans') (k : AggKey) :
    plansTotal participant_count plans k = plansTotal participant_count plans' k :=
  List.Perm.sum_eq (h.map _)

/-- C1: for every participant count and every permutation of the list of meal
slots fed into the aggregation loop of `calculate_shopping_list`, the final
aggregated quantity total for each (ingredient id, unit) key is the same. -/
theorem aggregation_perm_invariant (participant_count : ℤ)
    (plans plans' : List MealPlan) (hperm : plans.Perm plans')
    (st st' : AggState)
    (h : aggregatePlans participant_count [] plans = .ok st)
    (h' : aggregatePlans participant_count [] plans' = .ok st')
    (key : AggKey) :
    aggQuantity st key = aggQuantity st' key := by
  rw [aggQuantity_aggregatePlans participant_count plans [] st h key,
    aggQuantity_aggregatePlans participant_count plans' [] st' h' key,
    plansTotal_perm participant_count hperm key]

/-- Witness for C1: swapping two recipe-bearing slots yields dict states in a
different insertion order with the same per-key totals. -/
theorem aggregation_perm_invariant_witness :
    aggQuantity WaggL (1, "g") = aggQuantity WaggR (1, "g") := by
  have hL : aggregatePlans 50 [] [WmpB, WmpD] = .ok WaggL := by
    norm_num [aggregatePlans, aggPlan, aggWithRecipe, aggScaled, scale_recipe,
      aggIngredient, aggApply, dictGet, dictSet, aggDefault, Option.getD,
      WmpB, WmpD, Wrec, Wrec2, Wing, Wing2, WaggL, pyTruthyOptNat]
  have hR : aggregatePlans 50 [] [WmpD, WmpB] = .ok WaggR := by
    norm_num [aggregatePlans, aggPlan, aggWithRecipe, aggScaled, scale_recipe,
      aggIngredient, aggApply, dictGet, dictSet, aggDefault, Option.getD,
      WmpB, WmpD, Wrec, Wrec2, Wing, Wing2, WaggR, pyTruthyOptNat]
  exact aggregation_perm_invariant 50 [WmpB, WmpD] [WmpD, WmpB]
    (List.Perm.swap WmpD WmpB []) WaggL WaggR hL hR (1, "g")

/-- C10: `calculate_shopping_list` never dereferences an absent recipe: a
slot whose `recipe_id` is null, and a slot whose resolved recipe object is
missing, leaves the aggregation state unchanged (it is skipped before
scaling), and the whole aggregation loop equals the loop over only the slots
that pass the guard, so skipped slots contribute nothing; the scaling branch
only ever runs on a present recipe, which the total model makes explicit. -/
theorem skip_unassigned_slots (participant_count : ℤ) (st : AggState)
    (plans : List MealPlan) :
    (∀ mp : MealPlan, mp.recipe_id = none ∨ mp.recipe = none →
      aggPlan participant_count st mp = .ok st) ∧
    aggregatePlans participant_count st plans =
      aggregatePlans participant_count st
        (plans.filter (fun mp => pyTruthyOptNat mp.recipe_id && mp.recipe.isSome)) := by
  constructor
  · intro mp hmp
    unfold aggPlan
    rcases hmp with h | h
    · rw [h]
      rfl
    · rw [h]
      cases htr : pyTruthyOptNat mp.recipe_id
      · rfl
      · simp [aggWithRecipe]
  · induction plans generalizing st with
    | nil => rfl
    | cons mp rest ih =>
      by_cases hkeep : (pyTruthyOptNat mp.recipe_id && mp.recipe.isSome) = true
      · simp only [List.filter_cons]
        rw [if_pos hkeep]
        simp only [aggregatePlans]
        cases hp : aggPlan participant_count st mp with
        | error e => rfl
        | ok st1 => exact ih st1
      · simp only [List.filter_cons]
        rw [if_neg hkeep]
        have hskip : aggPlan participant_count st mp = .ok st := by
          unfold aggPlan
          cases htr : pyTruthyOptNat mp.recipe_id with
          | false => rfl
          | true =>
            cases hrec : mp.recipe with
            | none => simp [aggWithRecipe]
            | some r =>
              exact absurd (by rw [htr, hrec]; rfl) hkeep
        simp only [aggregatePlans]
        rw [hskip]
        exact ih st

/-- Witness for C10: a null-recipe slot is a no-op for the aggregation, and
filtering it out of a plan list leaves the loop's result unchanged. -/
theorem skip_unassigned_slots_witness :
    aggPlan 50 [] WmpNone = .ok [] ∧
    aggregatePlans 50 [] [WmpB, WmpNone] =
      aggregatePlans 50 []
        ([WmpB, WmpNone].filter (fun mp => pyTruthyOptNat mp.recipe_id && mp.recipe.isSome)) :=
  ⟨(skip_unassigned_slots 50 [] []).1 WmpNone (Or.inl rfl),
   (skip_unassigned_slots 50 [] [WmpB, WmpNone]).2⟩

/-- C5 counterexample: in a camp with one recipe-bearing slot and one "no
meal" slot, `calculate_shopping_list` reports `total_recipes = 2` (the
`set` of `recipe_id` values contains `None`), while only one distinct recipe
identity is referenced, so the claimed equality fails. -/
theorem total_recipes_counterexample :
    (calculate_shopping_list Wdb 1).map (fun out => out.total_recipes) = .ok 2 ∧
    distinctRecipeIdentities (get_meal_plans_for_camp Wdb 1) = 1 ∧
    (2 : ℕ) ≠ 1 :=
  ⟨rfl, rfl, by decide⟩

/-- C5 amended: for every existing camp (and successful aggregation), the
`total_recipes` field equals the number of distinct values of `recipe_id`
over the camp's meal slots, the null "no meal" marker counting as a value of
its own — one more than the distinct recipe identities whenever a null slot
exists. -/
theorem total_recipes_amended (db : Db) (camp_id : ℕ)
    (h : (calculate_shopping_list db camp_id).isOk = true) :
    (calculate_shopping_list db camp_id).map (fun out => out.total_recipes) =
      .ok (((get_meal_plans_for_camp db camp_id).map
        (fun mp => mp.recipe_id)).toFinset.card) := by
  unfold calculate_shopping_list at h ⊢
  cases hc : get_camp db camp_id with
  | none =>
    rw [hc] at h
    simp [campShoppingList, Except.isOk, Except.toBool] at h
  | some camp =>
    rw [hc] at h
    simp only [campShoppingList] at h ⊢
    cases ha : aggregatePlans camp.participant_count []
        (get_meal_plans_for_camp db camp_id) with
    | error e =>
      rw [ha] at h
      simp [shoppingFromAgg, Except.isOk, Except.toBool] at h
    | ok agg =>
      simp only [shoppingFromAgg]
      simp [Except.map, List.card_toFinset]

/-- Witness for C5 amended, at the sample database. -/
theorem total_recipes_amended_witness :
    (calculate_shopping_list Wdb 1).map (fun out => out.total_recipes) =
      .ok (((get_meal_plans_for_camp Wdb 1).map
        (fun mp => mp.recipe_id)).toFinset.card) :=
  total_recipes_amended Wdb 1 rfl


/-- C6: for every existing camp, `get_camp_statistics` returns `total_days`
equal to the inclusive day count `(end_date - start_date).days + 1`, expected
slots equal to `total_days * 3`, planned slots equal to the number of
distinct (date, meal-type) pairs with at least one `MealPlan` row whether or
not a recipe is assigned, and `completion_percentage` equal to
`round(planned / expected * 100, 1)` when the expected count is positive and
`0` otherwise. -/
theorem statistics_formulas (db : Db) (camp_id : ℕ) (camp : Camp)
    (h : get_camp db camp_id = some camp) :
    StatisticsFormulasSpec db camp_id camp := by
  unfold StatisticsFormulasSpec get_camp_statistics
  rw [h]
  simp only [campStatisticsOf]
  refine ⟨_, rfl, rfl, rfl, ?_, rfl⟩
  simp [buildCampStatistics, List.card_toFinset]

/-- Witness for C6 at the sample database. -/
theorem statistics_formulas_witness : StatisticsFormulasSpec Wdb 1 Wcamp :=
  statistics_formulas Wdb 1 Wcamp rfl

/-- C9: in `get_camp_statistics`, the unique-recipe count equals the number
of distinct non-null recipe ids among the camp's meal slots — a "no meal"
slot never contributes, in contrast to the aggregator's `total_recipes`,
which counts over all `recipe_id` values. (Stated for databases whose foreign
keys are genuine row ids, i.e. never `0`: the source's truthiness test
`if meal_plan.recipe_id:` would also drop a hypothetical id `0`.) -/
theorem unique_recipes_not_null (db : Db) (camp_id : ℕ) (camp : Camp)
    (h : get_camp db camp_id = some camp)
    (hids : ∀ mp ∈ get_meal_plans_for_camp db camp_id, mp.recipe_id ≠ some 0) :
    ∃ s, get_camp_statistics db camp_id = some s ∧
      s.unique_recipes =
        ((get_meal_plans_for_camp db camp_id).filterMap
          (fun mp => mp.recipe_id)).toFinset.card := by
  unfold get_camp_statistics
  rw [h]
  simp only [campStatisticsOf]
  refine ⟨_, rfl, ?_⟩
  have key : ∀ (l : List MealPlan), (∀ mp ∈ l, mp.recipe_id ≠ some 0) →
      l.filterMap (fun mp =>
        if pyTruthyOptNat mp.recipe_id then mp.recipe_id else none) =
      l.filterMap (fun mp => mp.recipe_id) := by
    intro l
    induction l with
    | nil => intro _; rfl
    | cons mp rest ih =>
      intro hl
      have hmp := hl mp (List.mem_cons_self mp rest)
      have hrest : ∀ x ∈ rest, x.recipe_id ≠ some 0 :=
        fun x hx => hl x (List.mem_cons_of_mem mp hx)
      cases hid : mp.recipe_id with
      | none =>
        have h1 : (if pyTruthyOptNat mp.recipe_id = true
            then mp.recipe_id else none) = none := by
          simp [hid, pyTruthyOptNat]
        rw [List.filterMap_cons_none
            (f := fun mp => if pyTruthyOptNat mp.recipe_id = true
              then mp.recipe_id else none) (a := mp) (l := rest) h1,
          List.filterMap_cons_none (f := fun mp => mp.recipe_id)
            (a := mp) (l := rest) hid, ih hrest]
      | some n =>
        have hn : n ≠ 0 := fun h0 => hmp (by rw [hid, h0])
        have h1 : (if pyTruthyOptNat mp.recipe_id = true
            then mp.recipe_id else none) = some n := by
          simp [hid, pyTruthyOptNat, hn]
        rw [List.filterMap_cons_some
            (f := fun mp => if pyTruthyOptNat mp.recipe_id = true
              then mp.recipe_id else none) (a := mp) (l := rest) h1,
          List.filterMap_cons_some (f := fun mp => mp.recipe_id)
            (a := mp) (l := rest) hid, ih hrest]
  simp only [buildCampStatistics]
  rw [key _ hids, List.card_toFinset]

/-- Witness for C9 at the sample database (one recipe slot, one null slot). -/
theorem unique_recipes_not_null_witness :
    ∃ s, get_camp_statistics Wdb 1 = some s ∧
      s.unique_recipes =
        ((get_meal_plans_for_camp Wdb 1).filterMap
          (fun mp => mp.recipe_id)).toFinset.card :=
  unique_recipes_not_null Wdb 1 Wcamp rfl (by decide)


/-- The inner daily-overview fold, from an arbitrary starting dict: each
meal-type's slot collects the day's rows in order, appended after whatever
the start carried. -/
theorem dayMealsFold_aux (plans : List MealPlan) (day_date : PyDateTime)
    (dm : MealType → Option (List MealPlan)) (mt : MealType) :
    (plans.foldl (fun dm mp =>
        if mp.meal_date.date = day_date.date then dmUpdate dm mp else dm) dm) mt =
      (if dayRows plans day_date mt = [] then dm mt
       else some ((dm mt).getD [] ++ dayRows plans day_date mt)) := by
  induction plans generalizing dm with
  | nil => simp [dayRows]
  | cons mp rest ih =>
    simp only [List.foldl_cons]
    by_cases hdate : mp.meal_date.date = day_date.date
    · rw [if_pos hdate]
      by_cases hmt : mt = mp.meal_type
      · subst hmt
        have hrow : dayRows (mp :: rest) day_date mp.meal_type =
            mp :: dayRows rest day_date mp.meal_type := by
          simp [dayRows, List.filter_cons, hdate]
        rw [ih, hrow]
        by_cases hr : dayRows rest day_date mp.meal_type = []
        · simp [hr, dmUpdate]
        · simp [hr, dmUpdate, List.append_assoc]
      · have hmt2 : ¬ mp.meal_type = mt := fun hh => hmt hh.symm
        have hrow : dayRows (mp :: rest) day_date mt =
            dayRows rest day_date mt := by
          simp [dayRows, List.filter_cons, hmt2]
        have hupd : dmUpdate dm mp mt = dm mt := by
          simp [dmUpdate, hmt]
        rw [ih, hrow, hupd]
    · rw [if_neg hdate]
      have hrow : dayRows (mp :: rest) day_date mt =
          dayRows rest day_date mt := by
        simp [dayRows, List.filter_cons, hdate]
      rw [ih, hrow]

/-- The `day_meals` dict of one overview day: `None` for a meal-type with no
rows on the date, the list of exactly the day's rows otherwise. -/
theorem dayMealsFold_eq (plans : List MealPlan) (day_date : PyDateTime)
    (mt : MealType) :
    dayMealsFold plans day_date mt =
      (if dayRows plans day_date mt = [] then none
       else some (dayRows plans day_date mt)) := by
  unfold dayMealsFold
  rw [dayMealsFold_aux]
  by_cases hr : dayRows plans day_date mt = [] <;> simp [hr]

/-- The `meals_planned` count of one overview day equals the number of
meal-types with at least one row on the date. -/
theorem mealsPlannedCount_eq (plans : List MealPlan) (day_date : PyDateTime) :
    mealsPlannedCount (dayMealsFold plans day_date) =
      (allMealTypes.filter (fun mt =>
        !(dayRows plans day_date mt).isEmpty)).length := by
  unfold mealsPlannedCount
  congr 1
  apply List.filter_congr
  intro mt _
  rw [dayMealsFold_eq]
  by_cases hr : dayRows plans day_date mt = []
  · simp [hr]
  · simp [hr, List.isEmpty_iff]


/-- C8 counterexample: in the sample camp, day 2 has no breakfast row, and
the overview entry's BREAKFAST slot is `None` — not the (empty) list of rows
the claim promises for every meal-type. -/
theorem daily_overview_counterexample :
    (get_camp_statistics Wdb 1).map
        (fun s => s.daily_overview.map (fun e => e.meals MealType.BREAKFAST)) =
      some [some [WmpB], none, none] ∧
    dayRows (get_meal_plans_for_camp Wdb 1)
        (Wcamp.start_date.addDays 1) MealType.BREAKFAST = [] ∧
    (none : Option (List MealPlan)) ≠ some [] :=
  ⟨rfl, rfl, by decide⟩

/-- C8 amended: for every existing camp the daily overview has exactly
`total_days` entries, the n-th dated `start_date + n` days; each entry
carries, for each meal-type, `None` when no `MealSlot` rows fall on that date
and the non-empty list of exactly those rows otherwise, together with a
`meals_planned` count equal to the number of meal-types having at least one
row on that day. -/
theorem daily_overview_structure (db : Db) (camp_id : ℕ) (camp : Camp)
    (h : get_camp db camp_id = some camp) :
    DailyOverviewSpec db camp_id camp := by
  unfold DailyOverviewSpec get_camp_statistics
  rw [h]
  simp only [campStatisticsOf]
  refine ⟨_, rfl, ?_, ?_⟩
  · simp [buildCampStatistics, buildDailyOverview]
  · intro n hn
    have hentry : (buildCampStatistics db camp_id camp).daily_overview.get ⟨n, hn⟩ =
        { day_number := n + 1,
          date := camp.start_date.addDays (Int.ofNat n),
          meals := dayMealsFold (get_meal_plans_for_camp db camp_id)
            (camp.start_date.addDays (Int.ofNat n)),
          meals_planned := mealsPlannedCount (dayMealsFold
            (get_meal_plans_for_camp db camp_id)
            (camp.start_date.addDays (Int.ofNat n))) } := by
      simp [buildCampStatistics, buildDailyOverview]
    rw [hentry]
    refine ⟨rfl, rfl, ?_, ?_⟩
    · intro mtv
      exact dayMealsFold_eq (get_meal_plans_for_camp db camp_id)
        (camp.start_date.addDays (Int.ofNat n)) mtv
    · exact mealsPlannedCount_eq (get_meal_plans_for_camp db camp_id)
        (camp.start_date.addDays (Int.ofNat n))

/-- Witness for C8's amended statement at the sample database. -/
theorem daily_overview_structure_witness : DailyOverviewSpec Wdb 1 Wcamp :=
  daily_overview_structure Wdb 1 Wcamp rfl

end Kuechenplaner
